import Mathlib

/-!
# Verification of the sticker-peel interaction engine

Shallow embedding of the sticker-peel animation library
(`sticker-animation.ts`, `sticker-animation-events.ts`,
`sticker-animation-dom.ts`, `sticker-animation-styles.ts`,
`sticker-animation-auto.ts`).

Modelling conventions:
* JS `number` values are modelled as exact rationals (`ℚ`).  The code under
  scrutiny performs only `+`, `-`, `*`, `/`, `min`, `max`, `abs` and the
  32-bit shift `>> 1`; the shift is modelled exactly (truncation to int32,
  then arithmetic shift, i.e. floor-halving).
* DOM state is modelled as an association list of nodes holding the
  parent/children structure and the inline-style properties the engine
  writes (display, opacity, transition, filter, width, height and the
  transform's translate/scale components).
* Event-driven code is modelled as explicit state-passing functions;
  `setTimeout` scheduling is recorded in a pending-timeout list.
-/

namespace Sticker

/-- Peel direction (`Direction` in `sticker-animation.ts`). -/
inductive Direction
  | left
  | right
  | top
  | bottom
deriving DecidableEq, Repr, Inhabited

/-- Animation phase (`AnimationPhase` in `sticker-animation.ts`). -/
inductive Phase
  | idle
  | peeling
  | stuck
  | paused
deriving DecidableEq, Repr, Inhabited

/-- JS `ToInt32` truncation step: a finite `number` is first truncated
toward zero. -/
def jsTrunc (q : ℚ) : ℤ := if 0 ≤ q then ⌊q⌋ else ⌈q⌉

/-- Wrap an integer into the signed 32-bit range, as JS `ToInt32` does. -/
def toInt32 (n : ℤ) : ℤ := (n + 2 ^ 31) % 2 ^ 32 - 2 ^ 31

/-- JS `x >> 1` on a `number`: `ToInt32` then arithmetic right shift,
which is floor division by two. -/
def jsShr1 (q : ℚ) : ℚ := ((Int.fdiv (toInt32 (jsTrunc q)) 2 : ℤ) : ℚ)

/-- Quadrant threshold computed at the `handleMouseEnter` call site
(`sticker-animation.ts`): `Math.min(width, height) / 4`. -/
def sizeQ (w h : ℚ) : ℚ := min w h / 4

/-- `getDirection` (`sticker-animation-events.ts`): classify the peel
direction from the event's page position `(px, py)` and the element's page
origin `(fx, fy)`, with quadrant threshold `q`. -/
def getDirection (px py fx fy q : ℚ) : Direction :=
  let tx := px - fx
  let ty := py - fy
  if tx < q then .left
  else if tx > q * 3 then .right
  else if ty < q then .top
  else .bottom

/-- The record of geometry values produced for one pointer sample
(`PeelValues` in `sticker-animation-events.ts`). -/
structure PeelValues where
  bx : ℚ
  byv : ℚ       -- source field `by` (a Lean keyword)
  sx : ℚ
  sy : ℚ
  bs : String
  bmx : ℚ
  bmy : ℚ
  bsw : ℚ
  bsh : ℚ
  bsx : ℚ
  bsy : ℚ
  cw : ℚ
  ch : ℚ
  cx : ℚ
  cy : ℚ
  dw : ℚ
  dh : ℚ
  dx : ℚ
  dy : ℚ
deriving DecidableEq, Repr, Inhabited

/-- `calculatePeelValues` (`sticker-animation-events.ts`): pure geometry
from the event page position `(px, py)`, the element page origin
`(fx, fy)`, the element extent `(w, h)` and the fixed direction. -/
def calculatePeelValues (px py fx fy w h : ℚ) (direction : Direction) :
    PeelValues :=
  let tx := px - fx
  let ty := py - fy
  let a := w - tx
  let b := h - ty
  let c := jsShr1 tx
  let d := jsShr1 ty
  let e := jsShr1 a
  let f := jsShr1 b
  match direction with
  | .left =>
      { bx := -w, byv := 0, sx := -1, sy := 1, bs := ("shadowL")
        bmx := -w + tx, bmy := 0
        bsw := tx, bsh := h, bsx := a, bsy := 0
        cw := w - c, ch := h, cx := c, cy := 0
        dw := c, dh := h, dx := c - jsShr1 c, dy := 0 }
  | .right =>
      { bx := w, byv := 0, sx := -1, sy := 1, bs := ("shadowR")
        bmx := tx, bmy := 0
        bsw := a, bsh := h, bsx := 0, bsy := 0
        cw := w - e, ch := h, cx := 0, cy := 0
        dw := e, dh := h, dx := w - a + jsShr1 e, dy := 0 }
  | .top =>
      { bx := 0, byv := -h, sx := 1, sy := -1, bs := ("shadowT")
        bmx := 0, bmy := -h + ty
        bsw := w, bsh := ty, bsx := 0, bsy := b
        cw := w, ch := h - d, cx := 0, cy := d
        dw := w, dh := d, dx := 0, dy := d - jsShr1 d }
  | .bottom =>
      { bx := 0, byv := h, sx := 1, sy := -1, bs := ("shadowB")
        bmx := 0, bmy := ty
        bsw := w, bsh := b, bsx := 0, bsy := 0
        cw := w, ch := h - f, cx := 0, cy := 0
        dw := w, dh := f, dx := 0, dy := h - b + jsShr1 f }

/-! ## Auto-animation driver (`sticker-animation-auto.ts`) -/

/-- One pass of the Newton-Raphson loop body in `cubicBezier`
(`sticker-animation-auto.ts`).  The source loop `break`s once
`|currentX - t| < 0.001` without updating `x`; since the updated state is
then a fixed point of this step, iterating the step is equivalent to the
loop with `break`. -/
def newtonStep (ax bx cx t x : ℚ) : ℚ :=
  let currentX := ((ax * x + bx) * x + cx) * x
  let currentSlope := (3 * ax * x + 2 * bx) * x + cx
  if |currentX - t| < 1 / 1000 then x else x - (currentX - t) / currentSlope

/-- `cubicBezier(x1, y1, x2, y2, t)` (`sticker-animation-auto.ts`):
simplified cubic-bezier evaluation via four Newton-Raphson iterations with
tolerance `0.001`. -/
def cubicBezier (px1 py1 px2 py2 t : ℚ) : ℚ :=
  let cx := 3 * px1
  let bx := 3 * (px2 - px1) - cx
  let ax := 1 - cx - bx
  let cy := 3 * py1
  let byv := 3 * (py2 - py1) - cy
  let ay := 1 - cy - byv
  let x0 := t
  let x1 := newtonStep ax bx cx t x0
  let x2 := newtonStep ax bx cx t x1
  let x3 := newtonStep ax bx cx t x2
  let x4 := newtonStep ax bx cx t x3
  ((ay * x4 + byv) * x4 + cy) * x4

/-- Progress clamp in `animate` (`sticker-animation-auto.ts`):
`Math.min(elapsed / config.duration, 1)`. -/
def autoProgress (elapsed duration : ℚ) : ℚ := min (elapsed / duration) 1

/-- The eased reveal progress produced by `animate` for a given elapsed
time: `cubicBezier(0.23, 1, 0.32, 1, progress)`. -/
def easedFromElapsed (elapsed duration : ℚ) : ℚ :=
  cubicBezier (23 / 100) 1 (32 / 100) 1 (autoProgress elapsed duration)

/-- Shadow progress in `calculateAutoAnimationValues`
(`sticker-animation-auto.ts`): `Math.min(progress * 1.5, 1)`. -/
def shadowProgress (progress : ℚ) : ℚ := min (progress * (3 / 2)) 1

/-! ## DOM model

A node store indexed by element ids.  Each node records its tree position
(parent, ordered child list) and the inline-style properties the engine
writes.  `transition` is modelled structurally (the source builds strings
such as `all 800ms <easing>` from the configured duration and easing). -/

/-- Transition descriptor written to `style.transition`. -/
inductive Transition
  | zero                                   -- `all 0s`
  | allMs (duration : ℚ) (easing : String)     -- `all ${duration}ms ${easing}`
  | opacityMs (duration : ℚ) (easing : String) -- `opacity ${duration}ms ${easing}`
  | unset
deriving DecidableEq, Repr, Inhabited

abbrev ElemId := Nat

/-- One DOM node: tree links plus the inline styles the engine touches.
`contentW`/`contentH` model the rendered content-box size that
`getElementSize` reads from layout (`getBoundingClientRect` minus padding
and border); the DOM model stores the resulting content size directly. -/
structure ElemData where
  parent : Option ElemId := none
  children : List ElemId := []
  display : String := ("")
  position : String := ("")
  opacity : String := ("")
  transition : Transition := .unset
  filter : String := ("")
  width : Option ℚ := none
  height : Option ℚ := none
  translate : ℚ × ℚ := (0, 0)
  scale : ℚ × ℚ := (1, 1)
  contentW : ℚ := 0
  contentH : ℚ := 0
deriving DecidableEq, Repr, Inhabited

/-- Replace (or add) the binding of `i` in a node association list. -/
def setAssoc (l : List (ElemId × ElemData)) (i : ElemId) (e : ElemData) :
    List (ElemId × ElemData) :=
  match l with
  | [] => [(i, e)]
  | (j, x) :: xs => if j = i then (i, e) :: xs else (j, x) :: setAssoc xs i e

/-- The document: node store, registered event listeners
(element, event type), and whether the shared global stylesheet
(`injectGlobalStyles`, keyed by `sticker-animation-styles`) is present. -/
structure Dom where
  elems : List (ElemId × ElemData)
  listeners : List (ElemId × String) := []
  styleInjected : Bool := false
deriving DecidableEq, Repr, Inhabited

def Dom.get (d : Dom) (i : ElemId) : ElemData :=
  (d.elems.lookup i).getD {}

def Dom.set (d : Dom) (i : ElemId) (e : ElemData) : Dom :=
  { d with elems := setAssoc d.elems i e }

/-- Update the binding of `i` in place (adding it when absent, consistent
with `Dom.get` returning the default node). -/
def modifyAssoc (l : List (ElemId × ElemData)) (i : ElemId)
    (f : ElemData → ElemData) : List (ElemId × ElemData) :=
  match l with
  | [] => [(i, f {})]
  | (j, x) :: xs => if j = i then (i, f x) :: xs else (j, x) :: modifyAssoc xs i f

def Dom.modify (d : Dom) (i : ElemId) (f : ElemData → ElemData) : Dom :=
  { d with elems := modifyAssoc d.elems i f }

/-- Detach a node from its parent (the effect of `node.remove()` and the
implicit re-parenting step of `insertBefore`/`appendChild`): clear the
node's parent link and delete it from every child list (on a well-formed
document it occurs in at most its parent's list). -/
def Dom.removeFromParent (d : Dom) (c : ElemId) : Dom :=
  { d with
    elems := d.elems.map fun jx =>
      if jx.1 = c then (jx.1, { jx.2 with parent := none })
      else (jx.1, { jx.2 with children := jx.2.children.filter fun x => x != c }) }

/-- Insert `x` directly before the first occurrence of `ref`
(appended at the end if `ref` is absent; every call site passes a current
child as `ref`). -/
def insertBeforeList (l : List ElemId) (x ref : ElemId) : List ElemId :=
  match l with
  | [] => [x]
  | y :: ys => if y = ref then x :: y :: ys else y :: insertBeforeList ys x ref

/-- `parent.insertBefore(x, ref)`. -/
def Dom.insertBefore (d : Dom) (p x ref : ElemId) : Dom :=
  let d1 := d.removeFromParent x
  (d1.modify p fun e =>
      { e with children := insertBeforeList e.children x ref }).modify
    x fun e => { e with parent := some p }

/-- `parent.appendChild(x)`. -/
def Dom.appendChild (d : Dom) (p x : ElemId) : Dom :=
  let d1 := d.removeFromParent x
  (d1.modify p fun e => { e with children := e.children ++ [x] }).modify
    x fun e => { e with parent := some p }

/-- `container.addEventListener(ty, handler)` (each handler is registered
once per event type in the source). -/
def Dom.addListener (d : Dom) (i : ElemId) (ty : String) : Dom :=
  { d with listeners := d.listeners ++ [(i, ty)] }

/-- `container.removeEventListener(ty, handler)`. -/
def Dom.removeListener (d : Dom) (i : ElemId) (ty : String) : Dom :=
  { d with
    listeners := d.listeners.filter fun l => !(l.1 == i && l.2 == ty) }

/-! ## Style applier and sticker DOM structure -/

/-- Ids of the layered structure built by `createStickerDOM`
(`DOMStructure` in `sticker-animation-dom.ts`), plus the two clones of the
target's content. -/
structure StickerIds where
  container : ElemId
  mask : ElemId
  move : ElemId
  front : ElemId
  frontClone : ElemId
  back : ElemId
  backImg : ElemId
  backClone : ElemId
  backShadow : ElemId
  depth : ElemId
deriving DecidableEq, Repr, Inhabited

/-- `applyPeelStyles` (`sticker-animation-events.ts`): one batched write of
the computed geometry onto the layers' styles. -/
def applyPeelStyles (d : Dom) (ids : StickerIds) (v : PeelValues)
    (transition : Transition) : Dom :=
  let d1 := d.modify ids.mask fun e =>
    { e with transition := transition, width := some v.cw,
             height := some v.ch, translate := (v.cx, v.cy) }
  let d2 := d1.modify ids.move fun e =>
    { e with transition := transition, translate := (-v.cx, -v.cy) }
  let d3 := d2.modify ids.back fun e =>
    { e with transition := transition, translate := (v.bmx, v.bmy) }
  let d4 := d3.modify ids.backImg fun e => { e with scale := (v.sx, v.sy) }
  let d5 := d4.modify ids.backShadow fun e =>
    { e with width := some v.bsw, height := some v.bsh,
             translate := (v.bsx, v.bsy) }
  d5.modify ids.depth fun e =>
    { e with width := some v.dw, height := some v.dh,
             translate := (v.dx, v.dy) }

/-- `createStickerDOM` (`sticker-animation-dom.ts`): allocate the ten fresh
nodes (eight layers and the two content clones; the clones are modelled as
single nodes), set their initial inline styles, and assemble them.  Fresh
ids are `fresh, fresh+1, …, fresh+9`. -/
def createStickerDOM (d : Dom) (w h : ℚ) (fresh : ElemId) :
    Dom × StickerIds :=
  let ids : StickerIds :=
    { container := fresh, mask := fresh + 1, move := fresh + 2,
      front := fresh + 3, frontClone := fresh + 4, back := fresh + 5,
      backImg := fresh + 6, backClone := fresh + 7, backShadow := fresh + 8,
      depth := fresh + 9 }
  let d := d.set ids.container
    { position := ("relative"), width := some w, height := some h,
      display := ("inline-block") }
  let d := d.set ids.mask
    { position := ("relative"), width := some w, height := some h,
      transition := .zero }
  let d := d.set ids.move
    { position := ("relative"), width := some w, height := some h,
      transition := .zero }
  let d := d.set ids.front
    { position := ("relative"), width := some w, height := some h }
  let d := d.set ids.frontClone {}
  let d := d.appendChild ids.front ids.frontClone
  let d := d.set ids.back
    { position := ("absolute"), width := some w, height := some h,
      translate := (w, 0), transition := .zero }
  let d := d.set ids.backImg
    { position := ("relative"), width := some w, height := some h }
  let d := d.set ids.backClone {}
  let d := d.appendChild ids.backImg ids.backClone
  let d := d.set ids.backShadow
    { position := ("absolute"), width := some w, height := some h,
      transition := .zero }
  let d := d.set ids.depth
    { position := ("absolute"), width := some w, height := some h,
      translate := (-10000, -10000), transition := .zero }
  let d := d.appendChild ids.back ids.backImg
  let d := d.appendChild ids.back ids.backShadow
  let d := d.appendChild ids.move ids.front
  let d := d.appendChild ids.move ids.depth
  let d := d.appendChild ids.move ids.back
  let d := d.appendChild ids.mask ids.move
  let d := d.appendChild ids.container ids.mask
  (d, ids)

/-- `getElementSize` (`sticker-animation-dom.ts`): the rendered content-box
size (rect minus padding and border), read from the node's layout data. -/
def getElementSize (d : Dom) (el : ElemId) : ℚ × ℚ :=
  ((d.get el).contentW, (d.get el).contentH)

/-- The clearing loop of `insertStickerDOM`: remove leading wrapper
children until the original element (or the end of the list) is reached.
The source loop removes `wrapper.firstChild` repeatedly; recursing over a
snapshot of the child list is equivalent because each removal deletes
exactly the head. -/
def clearUntil (d : Dom) (pending : List ElemId) (target : ElemId) : Dom :=
  match pending with
  | [] => d
  | x :: xs => if x = target then d else clearUntil (d.removeFromParent x) xs target

/-- `insertStickerDOM` (`sticker-animation-dom.ts`): hide the original
element, clear wrapper content that precedes it, and insert the container
before it. -/
def insertStickerDOM (d : Dom) (wrapper : ElemId) (ids : StickerIds)
    (original : ElemId) : Dom :=
  let d1 := d.modify original fun e => { e with display := ("none") }
  let d2 := clearUntil d1 (d1.get wrapper).children original
  d2.insertBefore wrapper ids.container original

/-- `setupEventHandlers` (`sticker-animation-events.ts`): register the six
pointer/touch listeners on the container. -/
def setupEventHandlers (d : Dom) (container : ElemId) : Dom :=
  ((((((d.addListener container ("mouseenter")).addListener container
    ("mouseleave")).addListener container ("mousemove")).addListener
    container ("touchstart")).addListener container
    ("touchend")).addListener container ("touchmove"))

/-- Listener removal performed by the cleanup closure that
`setupEventHandlers` returns. -/
def teardownEventHandlers (d : Dom) (container : ElemId) : Dom :=
  ((((((d.removeListener container ("mouseenter")).removeListener container
    ("mouseleave")).removeListener container ("mousemove")).removeListener
    container ("touchstart")).removeListener container
    ("touchend")).removeListener container ("touchmove"))

/-! ## Configuration (`sticker-animation.ts`) -/

/-- `IntersectionObserverInit` subset used by the engine. -/
structure ObserverInit where
  threshold : Option ℚ := none
  rootMargin : Option String := none
deriving DecidableEq, Repr, Inhabited

/-- `StickerAnimationConfig`: every option may be omitted. -/
structure StickerAnimationConfig where
  duration : Option ℚ := none
  easing : Option String := none
  direction : Option Direction := none
  delay : Option ℚ := none
  shadowIntensity : Option ℚ := none
  perspective : Option ℚ := none
  observerOptions : Option ObserverInit := none
deriving DecidableEq, Repr, Inhabited

/-- `Required<StickerAnimationConfig>` after merging. -/
structure FinalConfig where
  duration : ℚ
  easing : String
  direction : Direction
  delay : ℚ
  shadowIntensity : ℚ
  perspective : ℚ
  obsThreshold : ℚ
  obsRootMargin : String
deriving DecidableEq, Repr, Inhabited

/-- `DEFAULT_CONFIG` (`sticker-animation.ts`). -/
def DEFAULT_CONFIG : FinalConfig :=
  { duration := 800
    easing := ("cubic-bezier(0.23, 1, 0.32, 1)")
    direction := .left
    delay := 0
    shadowIntensity := 7 / 10
    perspective := 800
    obsThreshold := 1 / 5
    obsRootMargin := ("0px 0px -100px 0px") }

/-- The spread-merge at the top of `useStickerAnimation`: user options
override defaults field-wise; `observerOptions` is merged one level
deeper. -/
def mergeConfig (c : StickerAnimationConfig) : FinalConfig :=
  { duration := c.duration.getD DEFAULT_CONFIG.duration
    easing := c.easing.getD DEFAULT_CONFIG.easing
    direction := c.direction.getD DEFAULT_CONFIG.direction
    delay := c.delay.getD DEFAULT_CONFIG.delay
    shadowIntensity := c.shadowIntensity.getD DEFAULT_CONFIG.shadowIntensity
    perspective := c.perspective.getD DEFAULT_CONFIG.perspective
    obsThreshold :=
      ((c.observerOptions.bind fun o => o.threshold).getD
        DEFAULT_CONFIG.obsThreshold)
    obsRootMargin :=
      ((c.observerOptions.bind fun o => o.rootMargin).getD
        DEFAULT_CONFIG.obsRootMargin) }

/-- The two numeric-range checks in `useStickerAnimation`: a non-positive
`duration` and an out-of-range `shadowIntensity` are each replaced by the
default after a `console.warn`; checks run in source order and collect the
emitted warnings. -/
def validateConfig (fc : FinalConfig) : FinalConfig × List String :=
  let p1 :=
    if fc.duration ≤ 0 then
      ({ fc with duration := DEFAULT_CONFIG.duration },
        [("useStickerAnimation: duration must be positive, using default")])
    else (fc, [])
  let fc1 := p1.1
  if fc1.shadowIntensity < 0 ∨ fc1.shadowIntensity > 1 then
    ({ fc1 with shadowIntensity := DEFAULT_CONFIG.shadowIntensity },
      p1.2 ++
        [("useStickerAnimation: shadowIntensity must be between 0 and 1, using default")])
  else (fc1, p1.2)

/-! ## Instance lifecycle (`useStickerAnimation`) -/

/-- Pending `setTimeout` work an instance may schedule. -/
inductive Timeout
  | dropShadow    -- static drop shadow applied after the leave transition
deriving DecidableEq, Repr, Inhabited

/-- The construction argument: JS `null`/`undefined`, a non-`HTMLElement`
value, or an `HTMLElement` in the node store. -/
inductive Target
  | jsNull
  | notHTMLElement
  | elem (i : ElemId)
deriving DecidableEq, Repr, Inhabited

/-- The per-instance state owned by one `useStickerAnimation` call:
element ids, validated configuration, animation bookkeeping
(`animationState`, `currentDirection`, `savePos`, `elementPos`), the
visibility-trigger state (`hasTriggered`, observing flag, pending delayed
show) and scheduled timeouts. -/
structure Inst where
  target : ElemId
  wrapper : ElemId
  ids : StickerIds
  fc : FinalConfig
  warnings : List String
  stylesNoop : Bool
  ioSupported : Bool
  elementSize : ℚ × ℚ
  phase : Phase
  progress : ℚ
  currentDirection : Direction
  savePos : Option PeelValues
  elementPos : Option (ℚ × ℚ)
  hasTriggered : Bool
  observing : Bool
  pendingShow : Bool
  timeouts : List Timeout
deriving DecidableEq, Repr, Inhabited

/-- `useStickerAnimation` (`sticker-animation.ts`): merge the config,
validate the target (throwing before any DOM mutation when it is not an
`HTMLElement`), substitute defaults for out-of-range numbers, inject the
shared stylesheet, wrap the target, build and insert the sticker layers,
register listeners, and start the visibility observer (when supported).
Returns the document paired with either the error message or the new
instance.  Fresh node ids are `fresh, …, fresh+10`. -/
def useStickerAnimation (d : Dom) (t : Target)
    (cfg : StickerAnimationConfig) (fresh : ElemId) (ioSupported : Bool) :
    Dom × Except String Inst :=
  let fc0 := mergeConfig cfg
  match t with
  | .elem target =>
      let vr := validateConfig fc0
      let fc := vr.1
      let stylesNoop := d.styleInjected
      let d1 := if d.styleInjected then d else { d with styleInjected := true }
      let wrapper := fresh
      let d2 := d1.set wrapper
        { position := ("relative"), display := ("inline-block") }
      let d3 := match (d2.get target).parent with
        | some p => d2.insertBefore p wrapper target
        | none => d2
      let d4 := d3.appendChild wrapper target
      let sz := getElementSize d4 target
      let cres := createStickerDOM d4 sz.1 sz.2 (fresh + 1)
      let ids := cres.2
      let d5 := insertStickerDOM cres.1 wrapper ids target
      let d6 := setupEventHandlers d5 ids.container
      let d7 :=
        if ioSupported then
          d6.modify ids.container fun e =>
            { e with opacity := ("0"),
                     transition := .opacityMs fc.duration fc.easing }
        else d6
      (d7,
        .ok
          { target := target, wrapper := wrapper, ids := ids, fc := fc,
            warnings := vr.2, stylesNoop := stylesNoop,
            ioSupported := ioSupported, elementSize := sz, phase := .idle,
            progress := 0, currentDirection := fc.direction,
            savePos := none, elementPos := none, hasTriggered := false,
            observing := ioSupported, pendingShow := false, timeouts := [] })
  | _ =>
      (d, .error ("useStickerAnimation: targetElement must be a valid HTMLElement"))

/-- `destroy` (`sticker-animation.ts`): run the cleanup closures in
registration order (stylesheet removal, listener removal, observer
disconnect when one was created, and a final no-op), remove the sticker
container, reset the original element's inline display, restore the
original tree shape, and reset the animation state. -/
def destroy (d : Dom) (i : Inst) : Dom × Inst :=
  let d1 := if i.stylesNoop then d else { d with styleInjected := false }
  let d2 := teardownEventHandlers d1 i.ids.container
  let i1 := if i.ioSupported then { i with observing := false } else i
  let d3 := d2.removeFromParent i.ids.container
  let d4 := d3.modify i.target fun e => { e with display := ("") }
  let d5 :=
    match (d4.get i.wrapper).parent with
    | some p =>
        if (d4.get i.target).parent = some i.wrapper then
          (d4.insertBefore p i.target i.wrapper).removeFromParent i.wrapper
        else d4
    | none => d4
  (d5, { i1 with phase := .idle, progress := 0 })

/-! ## Visibility trigger (the IntersectionObserver callback) -/

/-- `showElement` (inside the observer callback): make the container
visible and stop observing it. -/
def showElement (d : Dom) (i : Inst) : Dom × Inst :=
  (d.modify i.ids.container fun e => { e with opacity := ("1") },
    { i with observing := false })

/-- Processing one `IntersectionObserverEntry`: on the first intersecting
entry, mark the trigger as consumed and show the container, after the
configured delay if one is set. -/
def onIntersectEntry (d : Dom) (i : Inst) (isIntersecting : Bool) :
    Dom × Inst :=
  if isIntersecting && !i.hasTriggered then
    let i1 := { i with hasTriggered := true }
    if i1.fc.delay > 0 then (d, { i1 with pendingShow := true })
    else showElement d i1
  else (d, i)

/-- The delayed `setTimeout(showElement, delay)` firing. -/
def fireShowTimeout (d : Dom) (i : Inst) : Dom × Inst :=
  if i.pendingShow then showElement d { i with pendingShow := false }
  else (d, i)

/-! ## Leave handler -/

/-- `handleMouseLeave` (`sticker-animation.ts`): a no-op while no peel
session is active (`savePos === null`); otherwise apply the snap-back
geometry with the configured transition, mark the phase `stuck`, and
schedule the static drop shadow. -/
def handleMouseLeave (d : Dom) (i : Inst) (px py : ℚ) : Dom × Inst :=
  match i.savePos with
  | none => (d, i)
  | some _ =>
      let ep := i.elementPos.getD (0, 0)   -- source: `elementPos!`
      let rv := calculatePeelValues px py ep.1 ep.2 i.elementSize.1
        i.elementSize.2 i.currentDirection
      let v := { rv with
        bmx :=
          match i.currentDirection with
          | .left => -i.elementSize.1
          | .right => i.elementSize.1
          | _ => 0
        bmy :=
          match i.currentDirection with
          | .top => -i.elementSize.2
          | .bottom => i.elementSize.2
          | _ => 0
        cw := i.elementSize.1, ch := i.elementSize.2, cx := 0, cy := 0,
        dx := -10000, dy := -10000 }
      let d1 := applyPeelStyles d i.ids v (.allMs i.fc.duration i.fc.easing)
      (d1,
        { i with phase := .stuck, progress := 1, savePos := none,
                 timeouts := i.timeouts ++ [Timeout.dropShadow] })

/-- `handleTouchEnd` (`sticker-animation-events.ts`): `touchend` is
normalized to a synthetic `mouseleave` whose page coordinates default to
zero, then dispatched to the leave handler. -/
def handleTouchEnd (d : Dom) (i : Inst) : Dom × Inst :=
  handleMouseLeave d i 0 0

/-! ## Visibility-trigger traces -/

/-- Events delivered to the visibility trigger after setup: intersection
entries and the firing of the delayed show timeout. -/
inductive VisEvent
  | entry (isIntersecting : Bool)
  | timer
deriving DecidableEq, Repr, Inhabited

/-- Dispatch one visibility event. -/
def visStep (s : Dom × Inst) (ev : VisEvent) : Dom × Inst :=
  match ev with
  | .entry b => onIntersectEntry s.1 s.2 b
  | .timer => fireShowTimeout s.1 s.2

/-- The container's current inline opacity. -/
def containerOpacity (s : Dom × Inst) : String :=
  (s.1.get s.2.ids.container).opacity

/-- How many steps of an event trace change the container's opacity. -/
def opacityChanges (s : Dom × Inst) : List VisEvent → Nat
  | [] => 0
  | ev :: evs =>
      let s1 := visStep s ev
      (if containerOpacity s1 = containerOpacity s then 0 else 1) +
        opacityChanges s1 evs

/-! ## A representative scenario

A parent node `100` with three children `101, 102, 103`; the sticker is
constructed on the middle child `102` (rendered content box 400×300), in a
document with IntersectionObserver support and no pre-existing global
stylesheet. -/

def demoDom : Dom :=
  { elems :=
      [(100, { children := [101, 102, 103] }),
        (101, { parent := some 100 }),
        (102, { parent := some 100, contentW := 400, contentH := 300 }),
        (103, { parent := some 100 })] }

def demoConstruct : Dom × Except String Inst :=
  useStickerAnimation demoDom (.elem 102) {} 200 true

def demoInst : Inst := demoConstruct.2.toOption.getD default

def demoDestroyed : Dom × Inst := destroy demoConstruct.1 demoInst

/-- A variant of the demo instance with a configured reveal delay, used to
exercise the delayed branch of the visibility trigger. -/
def demoInstDelay : Inst :=
  { demoInst with fc := { demoInst.fc with delay := 5 } }

/-- A document holding a single detached element `7` (an `HTMLElement`
with no parent). -/
def detachedDom : Dom :=
  { elems := [(7, { contentW := 50, contentH := 60 })] }

/-! ## General lemmas about the node store -/

theorem lookup_modifyAssoc_self (l : List (ElemId × ElemData)) (i : ElemId)
    (f : ElemData → ElemData) :
    (modifyAssoc l i f).lookup i = some (f ((l.lookup i).getD {})) := by
  induction l with
  | nil => simp [modifyAssoc]
  | cons hd tl ih =>
      obtain ⟨j, x⟩ := hd
      by_cases h : j = i
      · subst h
        simp [modifyAssoc, List.lookup]
      · have hb : (i == j) = false := beq_eq_false_iff_ne.mpr (Ne.symm h)
        simp [modifyAssoc, h, List.lookup, hb, ih]

theorem lookup_modifyAssoc_ne (l : List (ElemId × ElemData)) (i j : ElemId)
    (f : ElemData → ElemData) (h : j ≠ i) :
    (modifyAssoc l i f).lookup j = l.lookup j := by
  have hb : (j == i) = false := beq_eq_false_iff_ne.mpr h
  induction l with
  | nil => simp [modifyAssoc, List.lookup, hb]
  | cons hd tl ih =>
      obtain ⟨k, x⟩ := hd
      by_cases hk : k = i
      · subst hk
        simp [modifyAssoc, List.lookup, hb]
      · simp [modifyAssoc, hk, List.lookup, ih]

theorem Dom.get_modify_self (d : Dom) (i : ElemId) (f : ElemData → ElemData) :
    (d.modify i f).get i = f (d.get i) := by
  simp [Dom.modify, Dom.get, lookup_modifyAssoc_self]

theorem Dom.get_modify_ne (d : Dom) (i j : ElemId) (f : ElemData → ElemData)
    (h : j ≠ i) : (d.modify i f).get j = d.get j := by
  simp [Dom.modify, Dom.get, lookup_modifyAssoc_ne _ _ _ _ h]

/-! ## Claim C1 — direction classification -/

/-- C1: `getDirection` classifies the pointer offset `(tx, ty) =
(px - fx, py - fy)` against the quadrant threshold `q = min(w, h) / 4` in
source order — left when `tx < q`, right when `tx > 3q`, otherwise top
when `ty < q` and bottom in all remaining cases — always yielding one of
the four directions; in particular, for a 400×400 element, offsets
(50,50), (350,50), (200,50) and (200,350) yield left, right, top and
bottom respectively. -/
theorem getDirection_quadrant_spec :
    (∀ px py fx fy w h : ℚ,
      (px - fx < sizeQ w h →
        getDirection px py fx fy (sizeQ w h) = Direction.left) ∧
      (¬ px - fx < sizeQ w h → px - fx > sizeQ w h * 3 →
        getDirection px py fx fy (sizeQ w h) = Direction.right) ∧
      (¬ px - fx < sizeQ w h → ¬ px - fx > sizeQ w h * 3 →
        py - fy < sizeQ w h →
        getDirection px py fx fy (sizeQ w h) = Direction.top) ∧
      (¬ px - fx < sizeQ w h → ¬ px - fx > sizeQ w h * 3 →
        ¬ py - fy < sizeQ w h →
        getDirection px py fx fy (sizeQ w h) = Direction.bottom) ∧
      (getDirection px py fx fy (sizeQ w h) = Direction.left ∨
        getDirection px py fx fy (sizeQ w h) = Direction.right ∨
        getDirection px py fx fy (sizeQ w h) = Direction.top ∨
        getDirection px py fx fy (sizeQ w h) = Direction.bottom)) ∧
    getDirection 50 50 0 0 (sizeQ 400 400) = Direction.left ∧
    getDirection 350 50 0 0 (sizeQ 400 400) = Direction.right ∧
    getDirection 200 50 0 0 (sizeQ 400 400) = Direction.top ∧
    getDirection 200 350 0 0 (sizeQ 400 400) = Direction.bottom := by
  refine ⟨fun px py fx fy w h => ⟨?_, ?_, ?_, ?_, ?_⟩, ?_, ?_, ?_, ?_⟩
  · intro h1
    simp [getDirection, h1]
  · intro h1 h2
    simp [getDirection, h1, h2]
  · intro h1 h2 h3
    simp [getDirection, h1, h2, h3]
  · intro h1 h2 h3
    simp [getDirection, h1, h2, h3]
  · by_cases h1 : px - fx < sizeQ w h
    · exact Or.inl (by simp [getDirection, h1])
    by_cases h2 : px - fx > sizeQ w h * 3
    · exact Or.inr (Or.inl (by simp [getDirection, h1, h2]))
    by_cases h3 : py - fy < sizeQ w h
    · exact Or.inr (Or.inr (Or.inl (by simp [getDirection, h1, h2, h3])))
    · exact Or.inr (Or.inr (Or.inr (by simp [getDirection, h1, h2, h3])))
  · norm_num [getDirection, sizeQ, min_def]
  · norm_num [getDirection, sizeQ, min_def]
  · norm_num [getDirection, sizeQ, min_def]
  · norm_num [getDirection, sizeQ, min_def]

/-- C1 witness: the quadrant theorem applied at the four documented
400×400 sample offsets. -/
theorem getDirection_quadrant_spec_witness :
    getDirection 50 50 0 0 (sizeQ 400 400) = Direction.left ∧
    getDirection 350 50 0 0 (sizeQ 400 400) = Direction.right ∧
    getDirection 200 50 0 0 (sizeQ 400 400) = Direction.top ∧
    getDirection 200 350 0 0 (sizeQ 400 400) = Direction.bottom :=
  ⟨(getDirection_quadrant_spec.1 50 50 0 0 400 400).1
      (by norm_num [sizeQ, min_def]),
    (getDirection_quadrant_spec.1 350 50 0 0 400 400).2.1
      (by norm_num [sizeQ, min_def]) (by norm_num [sizeQ, min_def]),
    (getDirection_quadrant_spec.1 200 50 0 0 400 400).2.2.1
      (by norm_num [sizeQ, min_def]) (by norm_num [sizeQ, min_def])
      (by norm_num [sizeQ, min_def]),
    (getDirection_quadrant_spec.1 200 350 0 0 400 400).2.2.2.1
      (by norm_num [sizeQ, min_def]) (by norm_num [sizeQ, min_def])
      (by norm_num [sizeQ, min_def])⟩

/-! ## Claim C2 — mask geometry and moving-layer compensation -/

theorem jsShr1_three : jsShr1 3 = 1 := by
  have h1 : jsTrunc 3 = 3 := by
    rw [jsTrunc, if_pos (by norm_num)]
    norm_num
  have h2 : toInt32 3 = 3 := by unfold toInt32; decide
  have h3 : Int.fdiv 3 2 = 1 := by decide
  rw [jsShr1, h1, h2, h3]
  norm_num

/-- C2 counterexample: for direction `left` with horizontal offset
`tx = 3` on a 400×400 element, the mask width is `399 = 400 - (3 >> 1)`
and the mask offset is `1`, not `400 - 3/2` and `3/2` as exact halving
would give. -/
theorem calculatePeelValues_half_counterexample :
    (calculatePeelValues 3 0 0 0 400 400 Direction.left).cw = 399 ∧
    (calculatePeelValues 3 0 0 0 400 400 Direction.left).cx = 1 ∧
    ¬ ((calculatePeelValues 3 0 0 0 400 400 Direction.left).cw = 400 - 3 / 2 ∧
        (calculatePeelValues 3 0 0 0 400 400 Direction.left).cx = 3 / 2) := by
  refine ⟨?_, ?_, ?_⟩ <;>
    simp [calculatePeelValues, jsShr1_three] <;> norm_num

/-- C2 (amended): the mask shrinks on the peel axis by the floor half
(JS `>> 1`) of the peeled offset, the off-axis extent is unchanged, the
mask offset is that floor half for left/top peels and zero for
right/bottom peels, and `applyPeelStyles` writes the exact negation
`(-cx, -cy)` of the mask offset as the moving layer's translation. -/
theorem calculatePeelValues_mask_spec :
    (∀ px py fx fy w h : ℚ,
      ((calculatePeelValues px py fx fy w h Direction.left).cw =
          w - jsShr1 (px - fx) ∧
        (calculatePeelValues px py fx fy w h Direction.left).cx =
          jsShr1 (px - fx) ∧
        (calculatePeelValues px py fx fy w h Direction.left).ch = h ∧
        (calculatePeelValues px py fx fy w h Direction.left).cy = 0) ∧
      ((calculatePeelValues px py fx fy w h Direction.right).cw =
          w - jsShr1 (w - (px - fx)) ∧
        (calculatePeelValues px py fx fy w h Direction.right).cx = 0 ∧
        (calculatePeelValues px py fx fy w h Direction.right).ch = h ∧
        (calculatePeelValues px py fx fy w h Direction.right).cy = 0) ∧
      ((calculatePeelValues px py fx fy w h Direction.top).ch =
          h - jsShr1 (py - fy) ∧
        (calculatePeelValues px py fx fy w h Direction.top).cy =
          jsShr1 (py - fy) ∧
        (calculatePeelValues px py fx fy w h Direction.top).cw = w ∧
        (calculatePeelValues px py fx fy w h Direction.top).cx = 0) ∧
      ((calculatePeelValues px py fx fy w h Direction.bottom).ch =
          h - jsShr1 (h - (py - fy)) ∧
        (calculatePeelValues px py fx fy w h Direction.bottom).cy = 0 ∧
        (calculatePeelValues px py fx fy w h Direction.bottom).cw = w ∧
        (calculatePeelValues px py fx fy w h Direction.bottom).cx = 0)) ∧
    (∀ (d : Dom) (ids : StickerIds) (v : PeelValues) (tr : Transition),
      ids.move ≠ ids.back → ids.move ≠ ids.backShadow →
      ids.move ≠ ids.depth →
      ((applyPeelStyles d ids v tr).get ids.move).translate =
        (-v.cx, -v.cy)) := by
  constructor
  · intro px py fx fy w h
    refine ⟨⟨?_, ?_, ?_, ?_⟩, ⟨?_, ?_, ?_, ?_⟩, ⟨?_, ?_, ?_, ?_⟩,
      ⟨?_, ?_, ?_, ?_⟩⟩ <;> simp [calculatePeelValues]
  · intro d ids v tr h1 h2 h3
    simp only [applyPeelStyles]
    rw [Dom.get_modify_ne _ _ _ _ h3, Dom.get_modify_ne _ _ _ _ h2]
    have himg :
        ∀ d0 : Dom,
          ((d0.modify ids.backImg fun e =>
              { e with scale := (v.sx, v.sy) }).get ids.move).translate =
            (d0.get ids.move).translate := by
      intro d0
      by_cases hbi : ids.backImg = ids.move
      · rw [hbi, Dom.get_modify_self]
      · rw [Dom.get_modify_ne _ _ _ _ (Ne.symm hbi)]
    rw [himg, Dom.get_modify_ne _ _ _ _ h1, Dom.get_modify_self]

/-- C2 witness: the moving-layer equation evaluated on the demo
instance's (pairwise distinct) layer ids. -/
theorem calculatePeelValues_mask_spec_witness :
    ((applyPeelStyles demoDom demoInst.ids
        (calculatePeelValues 50 60 0 0 400 300 Direction.left)
        Transition.zero).get demoInst.ids.move).translate =
      (-(calculatePeelValues 50 60 0 0 400 300 Direction.left).cx,
        -(calculatePeelValues 50 60 0 0 400 300 Direction.left).cy) :=
  calculatePeelValues_mask_spec.2 demoDom demoInst.ids
    (calculatePeelValues 50 60 0 0 400 300 Direction.left) Transition.zero
    (by decide) (by decide) (by decide)

/-! ## Claim C3 — back-face translation -/

/-- C3: the back-face translation along the peel axis is
`-extent + peeledOffset` for left/top and the mirrored-sign counterpart
`extent - peeledOffset` for right/bottom, with the off-axis component
zero; hence at zero peeled offset the back face is translated fully
off-element (`±extent`). -/
theorem calculatePeelValues_backface_spec :
    ∀ px py fx fy w h : ℚ,
      ((calculatePeelValues px py fx fy w h Direction.left).bmx =
          -w + (px - fx) ∧
        (calculatePeelValues px py fx fy w h Direction.left).bmy = 0) ∧
      ((calculatePeelValues px py fx fy w h Direction.top).bmy =
          -h + (py - fy) ∧
        (calculatePeelValues px py fx fy w h Direction.top).bmx = 0) ∧
      ((calculatePeelValues px py fx fy w h Direction.right).bmx =
          -(-w + (w - (px - fx))) ∧
        (calculatePeelValues px py fx fy w h Direction.right).bmy = 0) ∧
      ((calculatePeelValues px py fx fy w h Direction.bottom).bmy =
          -(-h + (h - (py - fy))) ∧
        (calculatePeelValues px py fx fy w h Direction.bottom).bmx = 0) ∧
      (calculatePeelValues fx py fx fy w h Direction.left).bmx = -w ∧
      (calculatePeelValues (fx + w) py fx fy w h Direction.right).bmx = w ∧
      (calculatePeelValues px fy fx fy w h Direction.top).bmy = -h ∧
      (calculatePeelValues px (fy + h) fx fy w h Direction.bottom).bmy =
        h := by
  intro px py fx fy w h
  refine ⟨⟨?_, ?_⟩, ⟨?_, ?_⟩, ⟨?_, ?_⟩, ⟨?_, ?_⟩, ?_, ?_, ?_, ?_⟩ <;>
    simp [calculatePeelValues]

/-! ## Claim C5 — shadow progress leads reveal progress -/

/-- C5 counterexample: at `progress = 0` the shadow progress already
equals the reveal progress, although `0 < 2/3`; so equality does not hold
only once progress reaches `2/3`. -/
theorem shadowProgress_equality_at_zero :
    shadowProgress 0 = 0 ∧ ¬ (2 / 3 ≤ (0 : ℚ)) := by
  norm_num [shadowProgress, min_def]

/-- C5 (amended): for all progress in `[0,1]`,
`shadowProgress = min(progress·1.5, 1)` is at least the progress, and
equality holds only at progress `0` or once progress reaches `2/3`. -/
theorem shadowProgress_leads_spec :
    ∀ p : ℚ, 0 ≤ p → p ≤ 1 →
      p ≤ shadowProgress p ∧
        (shadowProgress p = p → p = 0 ∨ 2 / 3 ≤ p) := by
  intro p h0 h1
  unfold shadowProgress
  rcases le_or_lt (p * (3 / 2)) 1 with h | h
  · rw [min_eq_left h]
    constructor
    · linarith
    · intro he
      left
      linarith
  · rw [min_eq_right h.le]
    constructor
    · exact h1
    · intro he
      right
      linarith

/-- C5 witness: the shadow-progress bound applied at progress `3/4`. -/
theorem shadowProgress_leads_spec_witness :
    (3 / 4 : ℚ) ≤ shadowProgress (3 / 4) ∧
      (shadowProgress (3 / 4) = 3 / 4 → (3 / 4 : ℚ) = 0 ∨
        2 / 3 ≤ (3 / 4 : ℚ)) :=
  shadowProgress_leads_spec (3 / 4) (by norm_num) (by norm_num)

/-! ## Claim C4 — eased auto-animation progress -/

/-- C4 counterexample: the eased reveal progress is NOT non-decreasing in
elapsed time.  With duration 10000, raising elapsed from 1897 to 1900
(clamped progress 0.1897 → 0.19) crosses the boundary where the
Newton-Raphson loop needs a second iteration, and the eased value
decreases. -/
theorem easedFromElapsed_not_monotone :
    (1897 : ℚ) < 1900 ∧
      easedFromElapsed 1900 10000 < easedFromElapsed 1897 10000 := by
  constructor
  · norm_num
  · norm_num [easedFromElapsed, autoProgress, cubicBezier, newtonStep,
      abs_lt, min_def]

/-- C4 (amended): the clamped progress `min(elapsed/duration, 1)` equals 1
for every `elapsed ≥ duration`, and the eased reveal progress then equals
exactly 1 (the Newton iteration breaks immediately at `t = 1`); the eased
progress is however not non-decreasing in elapsed time across
iteration-count boundaries. -/
theorem easedFromElapsed_complete (elapsed duration : ℚ)
    (hd : 0 < duration) (he : duration ≤ elapsed) :
    easedFromElapsed elapsed duration = 1 := by
  have h1 : autoProgress elapsed duration = 1 := by
    unfold autoProgress
    rw [min_eq_right ((one_le_div hd).mpr he)]
  rw [easedFromElapsed, h1]
  norm_num [cubicBezier, newtonStep, abs_lt]

/-- C4 witness: the completion equation at elapsed 1600 of an 800 ms
animation. -/
theorem easedFromElapsed_complete_witness :
    easedFromElapsed 1600 800 = 1 :=
  easedFromElapsed_complete 1600 800 (by norm_num) (by norm_num)

/-! ## Claim C6 — default substitution for out-of-range options -/

/-- C6: an out-of-range `shadowIntensity` (for example `1.5`) is replaced
by the default `0.7` — neither kept nor clamped to `1` — and a
non-positive `duration` is replaced by the default `800`, each with a
warning. -/
theorem config_substitution_spec :
    (∀ (c : StickerAnimationConfig) (s : ℚ), c.shadowIntensity = some s →
      s < 0 ∨ 1 < s →
      (validateConfig (mergeConfig c)).1.shadowIntensity = 7 / 10 ∧
        ("useStickerAnimation: shadowIntensity must be between 0 and 1, using default") ∈
          (validateConfig (mergeConfig c)).2) ∧
    (∀ (c : StickerAnimationConfig) (q : ℚ), c.duration = some q → q ≤ 0 →
      (validateConfig (mergeConfig c)).1.duration = 800 ∧
        ("useStickerAnimation: duration must be positive, using default") ∈
          (validateConfig (mergeConfig c)).2) ∧
    (validateConfig
        (mergeConfig { shadowIntensity := some (3 / 2) })).1.shadowIntensity =
      7 / 10 ∧
    (validateConfig
        (mergeConfig { shadowIntensity := some (3 / 2) })).1.shadowIntensity ≠
      3 / 2 ∧
    (validateConfig
        (mergeConfig { shadowIntensity := some (3 / 2) })).1.shadowIntensity ≠
      1 := by
  refine ⟨?_, ?_, ?_, ?_, ?_⟩
  · intro c s hs hr
    have hsi : (mergeConfig c).shadowIntensity = s := by
      simp [mergeConfig, hs]
    by_cases hd : (mergeConfig c).duration ≤ 0 <;>
      simp [validateConfig, hd, hsi, hr, DEFAULT_CONFIG]
  · intro c q hq hle
    have hdu : (mergeConfig c).duration = q := by
      simp [mergeConfig, hq]
    have hd : (mergeConfig c).duration ≤ 0 := by rw [hdu]; exact hle
    by_cases hsr : (mergeConfig c).shadowIntensity < 0 ∨
        (mergeConfig c).shadowIntensity > 1 <;>
      simp [validateConfig, hd, hsr, DEFAULT_CONFIG]
  · norm_num [validateConfig, mergeConfig, DEFAULT_CONFIG]
  · norm_num [validateConfig, mergeConfig, DEFAULT_CONFIG]
  · norm_num [validateConfig, mergeConfig, DEFAULT_CONFIG]

/-- C6 witness: both substitutions exercised at concrete configurations
(`shadowIntensity = 1.5`, `duration = -5`). -/
theorem config_substitution_spec_witness :
    ((validateConfig
          (mergeConfig { shadowIntensity := some (3 / 2) })).1.shadowIntensity =
        7 / 10 ∧
      ("useStickerAnimation: shadowIntensity must be between 0 and 1, using default") ∈
        (validateConfig (mergeConfig { shadowIntensity := some (3 / 2) })).2) ∧
    (validateConfig (mergeConfig { duration := some (-5) })).1.duration =
        800 ∧
      ("useStickerAnimation: duration must be positive, using default") ∈
        (validateConfig (mergeConfig { duration := some (-5) })).2 :=
  ⟨config_substitution_spec.1 { shadowIntensity := some (3 / 2) } (3 / 2)
      rfl (by norm_num),
    config_substitution_spec.2.1 { duration := some (-5) } (-5) rfl
      (by norm_num)⟩

/-! ## Claim C7 — construction failure behaviour -/

/-- C7 counterexample: a detached `HTMLElement` (node `7`, no parent) is
not a "valid attached element", yet construction succeeds — the source
only checks `instanceof HTMLElement`, never attachment. -/
theorem useStickerAnimation_detached_no_throw :
    (useStickerAnimation detachedDom (Target.elem 7) {} 10 true).2.isOk =
        true ∧
      (detachedDom.get 7).parent = none :=
  ⟨rfl, rfl⟩

/-- C7 (amended): construction throws if and only if the target is not an
`HTMLElement` (JS `null`/`undefined` or a non-element value); attachment
is not checked, so construction succeeds on every element, attached or
not.  When it throws, the document is returned unchanged: the check
precedes every DOM mutation. -/
theorem useStickerAnimation_throw_spec :
    ∀ (d : Dom) (cfg : StickerAnimationConfig) (fresh : ElemId) (io : Bool),
      ((useStickerAnimation d Target.jsNull cfg fresh io).1 = d ∧
        (useStickerAnimation d Target.jsNull cfg fresh io).2 =
          Except.error
            ("useStickerAnimation: targetElement must be a valid HTMLElement")) ∧
      ((useStickerAnimation d Target.notHTMLElement cfg fresh io).1 = d ∧
        (useStickerAnimation d Target.notHTMLElement cfg fresh io).2 =
          Except.error
            ("useStickerAnimation: targetElement must be a valid HTMLElement")) ∧
      ∀ el : ElemId,
        (useStickerAnimation d (Target.elem el) cfg fresh io).2.isOk =
          true :=
  fun _ _ _ _ => ⟨⟨rfl, rfl⟩, ⟨rfl, rfl⟩, fun _ => rfl⟩

/-! ## Claim C8 — destroy restores the DOM and is idempotent -/

/-- C8: on the representative element `102` (initially the middle child of
`100` with empty inline display), constructing and immediately destroying
restores the same parent, the same sibling order and the same inline
display, and a second `destroy` leaves the entire state — document and
instance — unchanged. -/
theorem destroy_roundtrip_spec :
    demoConstruct.2.isOk = true ∧
      (demoDestroyed.1.get 102).parent = (demoDom.get 102).parent ∧
      (demoDestroyed.1.get 100).children = (demoDom.get 100).children ∧
      (demoDestroyed.1.get 102).display = (demoDom.get 102).display ∧
      destroy demoDestroyed.1 demoDestroyed.2 = demoDestroyed :=
  ⟨rfl, rfl, rfl, rfl, rfl⟩

/-! ## Claim C10 — leave handler is a no-op without an active session -/

/-- C10: with no active peel session (`savePos = null`), the leave handler
— invoked directly or through the touch-end normalization — returns the
document and instance state fully unchanged: no animation-state mutation,
no style write, no scheduled timeout. -/
theorem leave_noop_spec :
    ∀ (d : Dom) (i : Inst) (px py : ℚ), i.savePos = none →
      handleMouseLeave d i px py = (d, i) ∧ handleTouchEnd d i = (d, i) := by
  intro d i px py h
  constructor
  · simp [handleMouseLeave, h]
  · simp [handleTouchEnd, handleMouseLeave, h]

/-- C10 witness: the no-op equations on the freshly constructed demo
instance (whose `savePos` is `none`). -/
theorem leave_noop_spec_witness :
    handleMouseLeave demoConstruct.1 demoInst 123 45 =
        (demoConstruct.1, demoInst) ∧
      handleTouchEnd demoConstruct.1 demoInst =
        (demoConstruct.1, demoInst) :=
  leave_noop_spec demoConstruct.1 demoInst 123 45 rfl

/-! ## Claim C9 — one-shot visibility trigger -/

theorem visStep_frozen (d : Dom) (i : Inst) (ev : VisEvent)
    (h1 : i.hasTriggered = true) (h2 : i.pendingShow = false) :
    visStep (d, i) ev = (d, i) := by
  cases ev with
  | entry b => simp [visStep, onIntersectEntry, h1]
  | timer => simp [visStep, fireShowTimeout, h2]

theorem opacityChanges_frozen (d : Dom) (i : Inst) (evs : List VisEvent)
    (h1 : i.hasTriggered = true) (h2 : i.pendingShow = false) :
    opacityChanges (d, i) evs = 0 := by
  induction evs with
  | nil => rfl
  | cons ev evs ih =>
      simp [opacityChanges, visStep_frozen d i ev h1 h2, ih]

theorem opacityChanges_pending (d : Dom) (i : Inst) (evs : List VisEvent)
    (h1 : i.hasTriggered = true) (h2 : i.pendingShow = true) :
    opacityChanges (d, i) evs ≤ 1 := by
  induction evs generalizing d i with
  | nil => simp [opacityChanges]
  | cons ev evs ih =>
      cases ev with
      | entry b =>
          have hstep : visStep (d, i) (.entry b) = (d, i) := by
            simp [visStep, onIntersectEntry, h1]
          simpa [opacityChanges, hstep] using ih d i h1 h2
      | timer =>
          have hstep :
              visStep (d, i) .timer =
                (d.modify i.ids.container fun e =>
                    { e with opacity := ("1") },
                  { i with pendingShow := false, observing := false }) := by
            simp [visStep, fireShowTimeout, h2, showElement]
          have htail :=
            opacityChanges_frozen
              (d.modify i.ids.container fun e => { e with opacity := ("1") })
              { i with pendingShow := false, observing := false } evs
              (by simp [h1]) (by simp)
          simp only [opacityChanges, hstep, htail]
          split_ifs <;> norm_num

theorem opacityChanges_oneshot (d : Dom) (i : Inst) (evs : List VisEvent)
    (h1 : i.hasTriggered = false) (h2 : i.pendingShow = false) :
    opacityChanges (d, i) evs ≤ 1 := by
  induction evs generalizing d i with
  | nil => simp [opacityChanges]
  | cons ev evs ih =>
      cases ev with
      | timer =>
          have hstep : visStep (d, i) .timer = (d, i) := by
            simp [visStep, fireShowTimeout, h2]
          simpa [opacityChanges, hstep] using ih d i h1 h2
      | entry b =>
          cases b with
          | false =>
              have hstep : visStep (d, i) (.entry false) = (d, i) := by
                simp [visStep, onIntersectEntry]
              simpa [opacityChanges, hstep] using ih d i h1 h2
          | true =>
              by_cases hdel : 0 < i.fc.delay
              · have hstep :
                    visStep (d, i) (.entry true) =
                      (d, { i with hasTriggered := true,
                                   pendingShow := true }) := by
                  simp [visStep, onIntersectEntry, h1, hdel]
                have htail :=
                  opacityChanges_pending d
                    { i with hasTriggered := true, pendingShow := true } evs
                    (by simp) (by simp)
                simpa [opacityChanges, hstep, containerOpacity] using htail
              · have hstep :
                    visStep (d, i) (.entry true) =
                      (d.modify i.ids.container fun e =>
                          { e with opacity := ("1") },
                        { i with hasTriggered := true,
                                 observing := false }) := by
                  simp [visStep, onIntersectEntry, h1, hdel, showElement]
                have htail :=
                  opacityChanges_frozen
                    (d.modify i.ids.container fun e =>
                      { e with opacity := ("1") })
                    { i with hasTriggered := true, observing := false } evs
                    (by simp) (by simp [h2])
                simp only [opacityChanges, hstep, htail]
                split_ifs <;> norm_num

/-- C9: the visibility trigger is one-shot.  The freshly constructed demo
instance starts with container opacity `"0"`, observing and untriggered;
once `hasTriggered` is set, further intersection entries are complete
no-ops; the first intersecting entry sets the container opacity to `"1"`
and stops observing — immediately when no delay is configured, after the
delayed show fires otherwise — and over any event trace from an
untriggered state the container's opacity changes at most once. -/
theorem visibility_oneshot_spec :
    containerOpacity (demoConstruct.1, demoInst) = ("0") ∧
    demoInst.observing = true ∧
    demoInst.hasTriggered = false ∧
    (∀ (d : Dom) (i : Inst) (b : Bool), i.hasTriggered = true →
      onIntersectEntry d i b = (d, i)) ∧
    (∀ (d : Dom) (i : Inst), i.hasTriggered = false → i.fc.delay ≤ 0 →
      containerOpacity (onIntersectEntry d i true) = ("1") ∧
        (onIntersectEntry d i true).2.observing = false) ∧
    (∀ (d : Dom) (i : Inst), i.hasTriggered = false → 0 < i.fc.delay →
      containerOpacity (onIntersectEntry d i true) =
          containerOpacity (d, i) ∧
        (onIntersectEntry d i true).2.pendingShow = true ∧
        containerOpacity (visStep (onIntersectEntry d i true) .timer) =
          ("1") ∧
        (visStep (onIntersectEntry d i true) .timer).2.observing = false) ∧
    (∀ (d : Dom) (i : Inst) (evs : List VisEvent), i.hasTriggered = false →
      i.pendingShow = false → opacityChanges (d, i) evs ≤ 1) := by
  refine ⟨rfl, rfl, rfl, ?_, ?_, ?_, ?_⟩
  · intro d i b h1
    simp [onIntersectEntry, h1]
  · intro d i h1 h2
    have hdel : ¬ 0 < i.fc.delay := not_lt.mpr h2
    constructor
    · simp [onIntersectEntry, h1, hdel, showElement, containerOpacity,
        Dom.get_modify_self]
    · simp [onIntersectEntry, h1, hdel, showElement]
  · intro d i h1 hdel
    refine ⟨?_, ?_, ?_, ?_⟩
    · simp [onIntersectEntry, h1, hdel, containerOpacity]
    · simp [onIntersectEntry, h1, hdel]
    · simp [onIntersectEntry, h1, hdel, visStep, fireShowTimeout,
        showElement, containerOpacity, Dom.get_modify_self]
    · simp [onIntersectEntry, h1, hdel, visStep, fireShowTimeout,
        showElement]
  · exact opacityChanges_oneshot

theorem demoInst_fc_eq : demoInst.fc = DEFAULT_CONFIG := by
  have h0 : demoInst.fc = (validateConfig (mergeConfig {})).1 := rfl
  rw [h0]
  norm_num [validateConfig, mergeConfig, DEFAULT_CONFIG]

/-- C9 witness: the one-shot properties exercised on the demo instance —
a second entry after triggering is ignored, the no-delay path shows the
container immediately, the delayed variant schedules then shows on the
timer, and a concrete trace changes opacity at most once. -/
theorem visibility_oneshot_spec_witness :
    onIntersectEntry demoConstruct.1 { demoInst with hasTriggered := true }
        false =
      (demoConstruct.1, { demoInst with hasTriggered := true }) ∧
    containerOpacity (onIntersectEntry demoConstruct.1 demoInst true) =
      ("1") ∧
    (onIntersectEntry demoConstruct.1 demoInstDelay true).2.pendingShow =
      true ∧
    opacityChanges (demoConstruct.1, demoInst)
      [.entry true, .entry true, .timer] ≤ 1 :=
  ⟨visibility_oneshot_spec.2.2.2.1 demoConstruct.1
      { demoInst with hasTriggered := true } false rfl,
    (visibility_oneshot_spec.2.2.2.2.1 demoConstruct.1 demoInst rfl
        (by rw [demoInst_fc_eq]; norm_num [DEFAULT_CONFIG])).1,
    (visibility_oneshot_spec.2.2.2.2.2.1 demoConstruct.1 demoInstDelay rfl
        (by norm_num [demoInstDelay])).2.1,
    visibility_oneshot_spec.2.2.2.2.2.2 demoConstruct.1 demoInst
      [.entry true, .entry true, .timer] rfl rfl⟩

end Sticker
